import Mathlib

/-!
Verification of the content-addressed publish/retrieve layer
(`src/lib/storage/ipfs.ts`) and the chain-transaction orchestrators
(`src/lib/solana/sunspot.ts`) of the zk-playground repository.

The TypeScript services are embedded shallowly:

* `localStorage` values are modelled as an explicit persisted state
  (absent key / unparseable string / parsed collection);
* the in-memory `Map` cache is an association list with overwrite-on-set;
* network effects (the remote add endpoint, gateway fetches, the RPC
  connection, the external signer) are parameters describing the outcome
  the environment would produce, and the code's sequence of externally
  visible actions (progress callbacks, signer/submit/confirm calls,
  gateway requests) is returned as an explicit event trace;
* `JSON.stringify` is an abstract serialization parameter, since the
  code only ever treats the serialized form as opaque bytes.
-/

set_option autoImplicit false

namespace ZkPlayground

/-- Artifact shape (`SharedCircuit` from `@/types`, whose definition file is
not part of the core sources): a content identifier plus metadata and source
text.  The fields are the ones `ipfs.ts` reads (`cid`, `title`,
`description`, `tags`, `timestamp`) together with the remaining artifact
fields of the data model (author label, source text). -/
structure SharedCircuit where
  cid : String
  title : String
  description : String
  author : String
  timestamp : Nat
  tags : List String
  code : String
  deriving DecidableEq

/-- Gallery entry (`GalleryCircuit`): all artifact fields plus the two
mutable counters. -/
structure GalleryCircuit where
  cid : String
  title : String
  description : String
  author : String
  timestamp : Nat
  tags : List String
  code : String
  views : Nat
  likes : Nat
  deriving DecidableEq

/-- The `{ ...circuit, views, likes }` spread used by
`GalleryService.addCircuit`. -/
def toGallery (c : SharedCircuit) (views likes : Nat) : GalleryCircuit :=
  { cid := c.cid, title := c.title, description := c.description,
    author := c.author, timestamp := c.timestamp, tags := c.tags,
    code := c.code, views := views, likes := likes }

/-! ### JS `Map` as an association list -/

/-- `Map.get` -/
def mapGet (m : List (String × SharedCircuit)) (k : String) :
    Option SharedCircuit :=
  (m.find? (fun p => p.1 == k)).map (fun p => p.2)

/-- `Map.set` (overwrites any previous binding of the key). -/
def mapSet (m : List (String × SharedCircuit)) (k : String)
    (v : SharedCircuit) : List (String × SharedCircuit) :=
  (k, v) :: m.filter (fun p => p.1 != k)

theorem mapGet_mapSet_self (m : List (String × SharedCircuit)) (k : String)
    (v : SharedCircuit) : mapGet (mapSet m k v) k = some v := by
  simp [mapGet, mapSet, List.find?]

/-! ### The mock content identifier (`IPFSService.generateMockHash`) -/

/-- Two's-complement truncation to a signed 32-bit integer, as JS bitwise
operators apply to their operands and results. -/
def toInt32 (n : Int) : Int :=
  (n + 2 ^ 31) % 2 ^ 32 - 2 ^ 31

/-- The UTF-16 code units of a string, in the order `charCodeAt`
enumerates them (astral code points become surrogate pairs). -/
def utf16Units (s : String) : List Nat :=
  (s.data.map fun c =>
    let n := c.toNat
    if n < 0x10000 then [n]
    else [0xD800 + (n - 0x10000) / 0x400, 0xDC00 + (n - 0x10000) % 0x400]).flatten

/-- One loop iteration of `generateMockHash`:
`hash = ((hash << 5) - hash) + char; hash = hash & hash;`. -/
def hashStep (hash : Int) (c : Nat) : Int :=
  toInt32 (toInt32 (hash * 32) - hash + (c : Int))

/-- The accumulated hash after the loop of `generateMockHash`. -/
def hashValue (content : String) : Int :=
  (utf16Units content).foldl hashStep 0

/-- `Math.abs(hash).toString(16)` -/
def toHexString (n : Nat) : String :=
  String.mk (Nat.toDigits 16 n)

/-- `.padStart(len, '0')` -/
def padStart (s : String) (len : Nat) : String :=
  String.mk (List.replicate (len - s.length) '0') ++ s

/-- `.slice(0, len)` -/
def sliceTo (s : String) (len : Nat) : String :=
  String.mk (s.data.take len)

/-- `IPFSService.generateMockHash` -/
def generateMockHash (content : String) : String :=
  sliceTo (padStart (toHexString (hashValue content).natAbs) 44) 44

/-! ### `IPFSService` state and operations -/

/-- The persisted `localStorage` value under key
`zk-playground-shared-circuits`: the key can be absent, hold a string
`JSON.parse` rejects, or hold a parsed object keyed by cid. -/
inductive StoredShared where
  | missing
  | corrupt
  | good (entries : List (String × SharedCircuit))
  deriving DecidableEq

/-- The mutable state of one `IPFSService` instance: the in-memory cache
and the durable local fallback store. -/
structure IPFSState where
  cache : List (String × SharedCircuit)
  shared : StoredShared
  deriving DecidableEq

/-- Result type of `IPFSService.upload`. -/
structure UploadResult where
  cid : String
  url : String
  deriving DecidableEq

/-- The fixed gateway list `IPFS_GATEWAYS`. -/
def IPFS_GATEWAYS : List String :=
  ["https://ipfs.io/ipfs/", "https://gateway.pinata.cloud/ipfs/",
   "https://cloudflare-ipfs.com/ipfs/", "https://dweb.link/ipfs/"]

/-- `IPFSService.upload`.  `stringify` is `JSON.stringify`; `remote` is the
outcome of the Infura add request (`some cid` for a 2xx response whose body
carries `Hash = cid`, `none` for any transport or non-2xx failure, which the
code turns into the local fallback path); `origin` is
`window.location.origin`.  On the fallback path the artifact is written into
the local store keyed by the mock cid (a parse failure of the stored value
is caught and ignored), and on either path the cache is updated. -/
def upload (stringify : SharedCircuit → String) (remote : Option String)
    (origin : String) (st : IPFSState) (data : SharedCircuit) :
    UploadResult × IPFSState :=
  match remote with
  | some cid =>
      ({ cid := cid, url := IPFS_GATEWAYS.headD "" ++ cid },
       { st with cache := mapSet st.cache cid data })
  | none =>
      let content := stringify data
      let mockCid := "Qm" ++ generateMockHash content
      let shared' :=
        match st.shared with
        | StoredShared.corrupt => st.shared
        | StoredShared.missing => StoredShared.good (mapSet [] mockCid data)
        | StoredShared.good es => StoredShared.good (mapSet es mockCid data)
      ({ cid := mockCid, url := origin ++ "/share/" ++ mockCid },
       { cache := mapSet st.cache mockCid data, shared := shared' })

/-- Externally visible resolution steps taken by `IPFSService.download`:
the read of the durable local store, and one HTTP GET per gateway tried. -/
inductive DLStep where
  | localLookup
  | gatewayGet (gateway : String)
  deriving DecidableEq

/-- The gateway loop of `IPFSService.download`.  `resp url = some d` models
a 2xx response with JSON body `d`; `none` models any failure (non-2xx,
timeout, network error, or a body `response.json()` rejects). -/
def tryGateways (resp : String → Option SharedCircuit) (cid : String) :
    List String → Option SharedCircuit × List DLStep
  | [] => (none, [])
  | g :: gs =>
    match resp (g ++ cid) with
    | some d => (some d, [DLStep.gatewayGet g])
    | none =>
        let r := tryGateways resp cid gs
        (r.1, DLStep.gatewayGet g :: r.2)

/-- Reading the durable local store during `download`: a missing key or a
parse failure (caught and ignored by the code) yields no hit. -/
def localGet (st : StoredShared) (cid : String) : Option SharedCircuit :=
  match st with
  | StoredShared.good es => mapGet es cid
  | _ => none

/-- `IPFSService.download`.  Returns the result (`none` models the final
`throw` of the NotFound error), the updated service state, and the trace of
resolution steps taken.  Resolution: in-memory cache, then the durable
local store (caching a hit), then each gateway in order (caching a hit). -/
def download (resp : String → Option SharedCircuit) (st : IPFSState)
    (cid : String) : Option SharedCircuit × IPFSState × List DLStep :=
  match mapGet st.cache cid with
  | some d => (some d, st, [])
  | none =>
    match localGet st.shared cid with
    | some d =>
        (some d, { st with cache := mapSet st.cache cid d },
         [DLStep.localLookup])
    | none =>
        let r := tryGateways resp cid IPFS_GATEWAYS
        match r.1 with
        | some d =>
            (some d, { st with cache := mapSet st.cache cid d },
             DLStep.localLookup :: r.2)
        | none => (none, st, DLStep.localLookup :: r.2)

/-- C1: for every artifact `A` and every pre-state, downloading the
identifier returned by `upload A` returns `A` itself, whatever the remote
outcome was and whatever the gateways would answer; the resolution trace is
empty, so on the fallback path (and indeed on both paths) the identifier is
resolved purely from local state with no gateway calls. -/
theorem upload_download_roundtrip (stringify : SharedCircuit → String)
    (remote : Option String) (origin : String) (st : IPFSState)
    (data : SharedCircuit) (resp : String → Option SharedCircuit) :
    download resp (upload stringify remote origin st data).2
        (upload stringify remote origin st data).1.cid
      = (some data, (upload stringify remote origin st data).2, []) := by
  cases remote <;> simp [upload, download, mapGet_mapSet_self]

/-- A concrete artifact used to instantiate the universally quantified
theorems at a specific input. -/
def artifactA : SharedCircuit :=
  { cid := "", title := "t", description := "demo", author := "me",
    timestamp := 1700000000, tags := ["zk"], code := "fn main()\x7b\x7d" }

/-- If every gateway fails, the gateway loop returns no result and has
attempted each configured gateway exactly once, in order. -/
theorem tryGateways_all_fail (resp : String → Option SharedCircuit)
    (cid : String) (gs : List String)
    (h : ∀ g ∈ gs, resp (g ++ cid) = none) :
    tryGateways resp cid gs = (none, gs.map DLStep.gatewayGet) := by
  induction gs with
  | nil => rfl
  | cons g gs ih =>
      have hg : resp (g ++ cid) = none := h g (List.mem_cons_self g gs)
      simp [tryGateways, hg,
        ih (fun g2 hg2 => h g2 (List.mem_cons_of_mem _ hg2))]

/-- If the gateways before `g` fail and `g` answers, the gateway loop
returns `g`'s answer having attempted exactly the gateways up to and
including `g`, in order. -/
theorem tryGateways_first_success (resp : String → Option SharedCircuit)
    (cid : String) (d : SharedCircuit) (pre : List String) (g : String)
    (post : List String)
    (hpre : ∀ g2 ∈ pre, resp (g2 ++ cid) = none)
    (hg : resp (g ++ cid) = some d) :
    tryGateways resp cid (pre ++ g :: post)
      = (some d, (pre ++ [g]).map DLStep.gatewayGet) := by
  induction pre with
  | nil => simp [tryGateways, hg]
  | cons a pre ih =>
      have ha : resp (a ++ cid) = none := hpre a (List.mem_cons_self a pre)
      simp [tryGateways, ha,
        ih (fun g2 hg2 => hpre g2 (List.mem_cons_of_mem _ hg2))]

/-- C7: `download` resolves in the fixed order cache → local store →
gateways in priority order.  A cache hit answers with no resolution steps;
a local-store hit answers after only the local read; when both miss, the
gateways are tried in the configured order, the first success wins after
attempting exactly the gateways before it once each, and the NotFound
failure (`none`) occurs only after the local store and every configured
gateway have been attempted exactly once. -/
theorem download_resolution_order (resp : String → Option SharedCircuit)
    (st : IPFSState) (cid : String) (d : SharedCircuit) :
    (mapGet st.cache cid = some d → download resp st cid = (some d, st, [])) ∧
    (mapGet st.cache cid = none → localGet st.shared cid = some d →
      download resp st cid
        = (some d, { st with cache := mapSet st.cache cid d },
           [DLStep.localLookup])) ∧
    (mapGet st.cache cid = none → localGet st.shared cid = none →
      (∀ g ∈ IPFS_GATEWAYS, resp (g ++ cid) = none) →
      download resp st cid
        = (none, st,
           DLStep.localLookup :: IPFS_GATEWAYS.map DLStep.gatewayGet)) ∧
    (∀ pre g post, mapGet st.cache cid = none →
      localGet st.shared cid = none →
      IPFS_GATEWAYS = pre ++ g :: post →
      (∀ g2 ∈ pre, resp (g2 ++ cid) = none) →
      resp (g ++ cid) = some d →
      download resp st cid
        = (some d, { st with cache := mapSet st.cache cid d },
           DLStep.localLookup :: (pre ++ [g]).map DLStep.gatewayGet)) := by
  refine ⟨?_, ?_, ?_, ?_⟩
  · intro h
    simp [download, h]
  · intro h1 h2
    simp [download, h1, h2]
  · intro h1 h2 h3
    simp [download, h1, h2, tryGateways_all_fail resp cid _ h3]
  · intro pre g post h1 h2 hdec hpre hg
    simp [download, h1, h2, hdec,
      tryGateways_first_success resp cid d pre g post hpre hg]

/-- Instantiation of C7's theorem: for an unknown identifier with every
gateway failing, `download` fails only after the local read and one attempt
per configured gateway. -/
theorem download_resolution_order_witness :
    download (fun _ => none) ⟨[], StoredShared.missing⟩ "QmUnknown"
      = (none, ⟨[], StoredShared.missing⟩,
         DLStep.localLookup :: IPFS_GATEWAYS.map DLStep.gatewayGet) :=
  (download_resolution_order (fun _ => none) ⟨[], StoredShared.missing⟩
      "QmUnknown" artifactA).2.2.1 rfl rfl (fun _ _ => rfl)

/-- C9: the identifier assigned on the local fallback path is a function of
the artifact's serialized bytes alone: if two artifacts serialize to the
same string, fallback uploads from any two pre-states assign them the same
identifier. -/
theorem fallback_cid_deterministic (stringify : SharedCircuit → String)
    (origin1 origin2 : String) (st1 st2 : IPFSState) (a b : SharedCircuit)
    (h : stringify a = stringify b) :
    (upload stringify none origin1 st1 a).1.cid
      = (upload stringify none origin2 st2 b).1.cid := by
  simp [upload, h]

/-- Instantiation of C9's theorem: two fallback uploads of the same
artifact, from different pre-states, return equal identifiers. -/
theorem fallback_cid_deterministic_witness :
    (upload (fun c => c.code) none "https://a.example" ⟨[], StoredShared.missing⟩
        artifactA).1.cid
      = (upload (fun c => c.code) none "https://b.example"
          ⟨[], StoredShared.corrupt⟩ artifactA).1.cid :=
  fallback_cid_deterministic (fun c => c.code) "https://a.example"
    "https://b.example" ⟨[], StoredShared.missing⟩ ⟨[], StoredShared.corrupt⟩
    artifactA artifactA rfl

/-! ### `GalleryService` -/

/-- Persisted `localStorage` value under key `zk-playground-gallery`: the
key can be absent, hold a string `JSON.parse` rejects, or hold a parsed
array of gallery entries. -/
inductive GalleryStore where
  | missing
  | corrupt
  | good (circuits : List GalleryCircuit)
  deriving DecidableEq

/-- Reading and parsing the persisted collection: an absent key is
defaulted to the empty-array literal, which parses to `[]`; an unreadable
or unparseable value makes `JSON.parse` throw (`none`). -/
def readGallery : GalleryStore → Option (List GalleryCircuit)
  | GalleryStore.missing => some []
  | GalleryStore.corrupt => none
  | GalleryStore.good circuits => some circuits

/-- The `filter` argument of `GalleryService.getCircuits`. -/
inductive GalleryFilter where
  | recent
  | popular
  | all
  deriving DecidableEq

/-- `GalleryService.getCircuits`: parse (returning `[]` on failure), sort
per the filter's comparator with a stable sort, truncate to `limit`. -/
def getCircuits (store : GalleryStore) (filter : GalleryFilter)
    (limit : Nat) : List GalleryCircuit :=
  match readGallery store with
  | none => []
  | some circuits =>
    let sorted :=
      match filter with
      | GalleryFilter.recent =>
          circuits.mergeSort (fun a b => b.timestamp ≤ a.timestamp)
      | GalleryFilter.popular =>
          circuits.mergeSort (fun a b => b.views + b.likes ≤ a.views + a.likes)
      | GalleryFilter.all => circuits
    sorted.take limit

/-- `Array.prototype.findIndex` with an explicit running index. -/
def findIndexFrom (p : GalleryCircuit → Bool) :
    List GalleryCircuit → Nat → Option Nat
  | [], _ => none
  | c :: cs, i => if p c then some i else findIndexFrom p cs (i + 1)

/-- `circuits.findIndex(p)`, with `none` for the sentinel -1. -/
def jsFindIndex (p : GalleryCircuit → Bool) (l : List GalleryCircuit) :
    Option Nat :=
  findIndexFrom p l 0

/-- `GalleryService.addCircuit`: builds the new entry with zeroed counters,
replaces the first entry with the same cid in place (or inserts at the
front when absent), truncates to 100, persists, and returns the new entry.
A parse failure is caught and the new entry is still returned. -/
def addCircuit (store : GalleryStore) (circuit : SharedCircuit) :
    GalleryCircuit × GalleryStore :=
  let galleryCircuit := toGallery circuit 0 0
  match readGallery store with
  | none => (galleryCircuit, store)
  | some circuits =>
    let circuits' :=
      match jsFindIndex (fun c => c.cid == circuit.cid) circuits with
      | some i => circuits.set i galleryCircuit
      | none => galleryCircuit :: circuits
    (galleryCircuit, GalleryStore.good (circuits'.take 100))

/-- `circuit.views++` on the found entry of `circuits.find(...)`: bump the
first entry with the given cid, leaving every other entry unchanged. -/
def bumpFirst (f : GalleryCircuit → GalleryCircuit) :
    List GalleryCircuit → String → List GalleryCircuit
  | [], _ => []
  | c :: cs, cid =>
      if c.cid == cid then f c :: cs else c :: bumpFirst f cs cid

/-- The view-counter mutation `circuit.views++`. -/
def bumpViews (g : GalleryCircuit) : GalleryCircuit :=
  { g with views := g.views + 1 }

/-- The like-counter mutation `circuit.likes++`. -/
def bumpLikes (g : GalleryCircuit) : GalleryCircuit :=
  { g with likes := g.likes + 1 }

/-- `GalleryService.incrementViews`: parse (errors caught, store
untouched), find the entry with the cid; when found, bump it and persist
the whole collection, otherwise do not write at all. -/
def incrementViews (store : GalleryStore) (cid : String) : GalleryStore :=
  match readGallery store with
  | none => store
  | some circuits =>
    match circuits.find? (fun c => c.cid == cid) with
    | none => store
    | some _ => GalleryStore.good (bumpFirst bumpViews circuits cid)

/-- `GalleryService.incrementLikes`, same shape as `incrementViews`. -/
def incrementLikes (store : GalleryStore) (cid : String) : GalleryStore :=
  match readGallery store with
  | none => store
  | some circuits =>
    match circuits.find? (fun c => c.cid == cid) with
    | none => store
    | some _ => GalleryStore.good (bumpFirst bumpLikes circuits cid)

/-- JS `String.prototype.includes`: the empty needle is always contained,
otherwise containment is witnessed by a split into at least two parts. -/
def jsIncludes (s t : String) : Bool :=
  t == "" || decide (2 ≤ (s.splitOn t).length)

/-- The predicate of `GalleryService.searchCircuits`: case-insensitive
substring match over title, description and each tag. -/
def matchesQuery (lowerQuery : String) (c : GalleryCircuit) : Bool :=
  jsIncludes c.title.toLower lowerQuery
  || jsIncludes c.description.toLower lowerQuery
  || c.tags.any (fun t => jsIncludes t.toLower lowerQuery)

/-- `GalleryService.searchCircuits`: parse (returning `[]` on failure) and
filter by the query. -/
def searchCircuits (store : GalleryStore) (query : String) :
    List GalleryCircuit :=
  match readGallery store with
  | none => []
  | some circuits => circuits.filter (matchesQuery query.toLower)

/-- Replacing the element after a prefix replaces exactly that element. -/
theorem set_at_append (pre : List GalleryCircuit) (g g2 : GalleryCircuit)
    (post : List GalleryCircuit) :
    (pre ++ g :: post).set pre.length g2 = pre ++ g2 :: post := by
  induction pre with
  | nil => rfl
  | cons a pre ih => simp [List.set, ih]

/-- `findIndex` finds the first match: with a clean prefix and a matching
element, it reports that element's position. -/
theorem findIndexFrom_append (p : GalleryCircuit → Bool)
    (pre : List GalleryCircuit) (g : GalleryCircuit)
    (post : List GalleryCircuit) (n : Nat)
    (hpre : ∀ c ∈ pre, p c = false) (hg : p g = true) :
    findIndexFrom p (pre ++ g :: post) n = some (n + pre.length) := by
  induction pre generalizing n with
  | nil => simp [findIndexFrom, hg]
  | cons a pre ih =>
      have ha : p a = false := hpre a (List.mem_cons_self a pre)
      rw [List.cons_append]
      rw [show findIndexFrom p (a :: (pre ++ g :: post)) n
            = if p a then some n else findIndexFrom p (pre ++ g :: post) (n + 1)
          from rfl]
      rw [ha, if_neg (by simp),
        ih (n + 1) (fun c hc => hpre c (List.mem_cons_of_mem _ hc))]
      exact congrArg some (by simp; omega)

/-- `findIndex` over a list with no match reports no index. -/
theorem findIndexFrom_eq_none (p : GalleryCircuit → Bool)
    (l : List GalleryCircuit) (n : Nat) (h : ∀ c ∈ l, p c = false) :
    findIndexFrom p l n = none := by
  induction l generalizing n with
  | nil => rfl
  | cons a l ih =>
      have ha : p a = false := h a (List.mem_cons_self a l)
      rw [show findIndexFrom p (a :: l) n
            = if p a then some n else findIndexFrom p l (n + 1) from rfl]
      rw [ha, if_neg (by simp)]
      exact ih (n + 1) (fun c hc => h c (List.mem_cons_of_mem _ hc))

/-- `find?` selects the first match of a decomposed list. -/
theorem find?_first_match (pre : List GalleryCircuit) (g : GalleryCircuit)
    (post : List GalleryCircuit) (cid : String)
    (hpre : ∀ c ∈ pre, c.cid ≠ cid) (hg : g.cid = cid) :
    (pre ++ g :: post).find? (fun c => c.cid == cid) = some g := by
  induction pre with
  | nil => simp [List.find?, hg]
  | cons a pre ih =>
      have ha : (a.cid == cid) = false := by
        simp [hpre a (List.mem_cons_self a pre)]
      simp only [List.cons_append, List.find?, ha]
      exact ih (fun c hc => hpre c (List.mem_cons_of_mem _ hc))

/-- The counter bump touches exactly the first entry with the cid. -/
theorem bumpFirst_append (f : GalleryCircuit → GalleryCircuit)
    (pre : List GalleryCircuit) (g : GalleryCircuit)
    (post : List GalleryCircuit) (cid : String)
    (hpre : ∀ c ∈ pre, c.cid ≠ cid) (hg : g.cid = cid) :
    bumpFirst f (pre ++ g :: post) cid = pre ++ f g :: post := by
  induction pre with
  | nil => simp [bumpFirst, hg]
  | cons a pre ih =>
      have ha : (a.cid == cid) = false := by
        simp [hpre a (List.mem_cons_self a pre)]
      simp [bumpFirst, ha,
        ih (fun c hc => hpre c (List.mem_cons_of_mem _ hc))]

/-- The artifact already published in the concrete scenarios below. -/
def artifactOld : SharedCircuit :=
  { cid := "QmC", title := "old title", description := "old description",
    author := "alice", timestamp := 100, tags := ["old"], code := "x" }

/-- A re-publish of the same identifier with different metadata. -/
def artifactNew : SharedCircuit :=
  { artifactOld with title := "new title", description := "new description" }

/-- C2 as stated is false on the code: re-publishing the identifier of an
entry holding `views = 5`, `likes = 7` stores the fresh entry with both
counters reset to 0 instead of preserving them. -/
theorem addCircuit_counters_cex :
    (addCircuit (GalleryStore.good [toGallery artifactOld 5 7])
        artifactNew).2
      ≠ GalleryStore.good [toGallery artifactNew 5 7] ∧
    (addCircuit (GalleryStore.good [toGallery artifactOld 5 7])
        artifactNew).2
      = GalleryStore.good [toGallery artifactNew 0 0] := by
  decide

/-- C2 (amended): `addCircuit` upserts by identifier, but the existing
entry is replaced in place by the fresh entry with both counters reset to 0
(rather than preserved); a new identifier is inserted at the front; the
collection is truncated to at most 100 entries; the fresh entry is
returned. -/
theorem addCircuit_spec (store : GalleryStore)
    (l pre post : List GalleryCircuit) (g : GalleryCircuit)
    (c : SharedCircuit) (hread : readGallery store = some l) :
    (addCircuit store c).1 = toGallery c 0 0 ∧
    (l = pre ++ g :: post → (∀ e ∈ pre, e.cid ≠ c.cid) → g.cid = c.cid →
      (addCircuit store c).2
        = GalleryStore.good ((pre ++ toGallery c 0 0 :: post).take 100)) ∧
    ((∀ e ∈ l, e.cid ≠ c.cid) →
      (addCircuit store c).2
        = GalleryStore.good ((toGallery c 0 0 :: l).take 100)) := by
  refine ⟨by simp [addCircuit, hread], ?_, ?_⟩
  · intro hdec hpre hg
    subst hdec
    have hidx : jsFindIndex (fun e => e.cid == c.cid) (pre ++ g :: post)
        = some pre.length := by
      have := findIndexFrom_append (fun e => e.cid == c.cid) pre g post 0
        (fun e he => by simp [hpre e he]) (by simp [hg])
      simpa [jsFindIndex] using this
    simp [addCircuit, hread, hidx, set_at_append]
  · intro habs
    have hidx : jsFindIndex (fun e => e.cid == c.cid) l = none :=
      findIndexFrom_eq_none _ l 0 (fun e he => by simp [habs e he])
    simp [addCircuit, hread, hidx]

/-- Instantiation of C2's amended theorem: re-publishing on a singleton
gallery replaces the entry in place with zeroed counters. -/
theorem addCircuit_spec_witness :
    (addCircuit (GalleryStore.good [toGallery artifactOld 5 7])
        artifactNew).2
      = GalleryStore.good [toGallery artifactNew 0 0] := by
  have h := (addCircuit_spec (GalleryStore.good [toGallery artifactOld 5 7])
      [toGallery artifactOld 5 7] [] [] (toGallery artifactOld 5 7)
      artifactNew rfl).2.1 rfl
      (fun e he => absurd he (List.not_mem_nil e)) rfl
  simpa using h

/-- C8: when the identifier is absent from the persisted collection
(including a missing or unparseable collection), `incrementViews` and
`incrementLikes` leave the persisted state exactly as it was and never
create an entry; when it is present, exactly the first entry carrying it
has its respective counter incremented and every other entry is
unchanged. -/
theorem increment_counters_frame (store : GalleryStore) (cid : String) :
    ((∀ l, readGallery store = some l → ∀ c ∈ l, c.cid ≠ cid) →
      incrementViews store cid = store ∧ incrementLikes store cid = store) ∧
    (∀ pre g post, readGallery store = some (pre ++ g :: post) →
      (∀ c ∈ pre, c.cid ≠ cid) → g.cid = cid →
      incrementViews store cid
          = GalleryStore.good (pre ++ bumpViews g :: post) ∧
      incrementLikes store cid
          = GalleryStore.good (pre ++ bumpLikes g :: post)) := by
  constructor
  · intro habs
    cases hread : readGallery store with
    | none => constructor <;> simp [incrementViews, incrementLikes, hread]
    | some l =>
        have hfind : l.find? (fun c => c.cid == cid) = none :=
          List.find?_eq_none.mpr (fun x hx => by simp [habs l hread x hx])
        constructor <;> simp [incrementViews, incrementLikes, hread, hfind]
  · intro pre g post hread hpre hg
    have hfind := find?_first_match pre g post cid hpre hg
    constructor <;>
      simp [incrementViews, incrementLikes, hread, hfind,
        bumpFirst_append _ pre g post cid hpre hg]

/-- Instantiation of C8's theorem: bumping the present identifier `QmC`
increments exactly its counter. -/
theorem increment_counters_frame_witness :
    incrementViews (GalleryStore.good [toGallery artifactOld 5 7]) "QmC"
        = GalleryStore.good [toGallery artifactOld 6 7]
      ∧ incrementLikes (GalleryStore.good [toGallery artifactOld 5 7]) "QmC"
        = GalleryStore.good [toGallery artifactOld 5 8] := by
  have h := (increment_counters_frame
      (GalleryStore.good [toGallery artifactOld 5 7]) "QmC").2
      [] (toGallery artifactOld 5 7) [] rfl
      (fun c hc => absurd hc (List.not_mem_nil c)) rfl
  exact ⟨by rw [h.1]; decide, by rw [h.2]; decide⟩

/-- C10: every `GalleryService` operation is total at its interface (the
embedding returns plain values in every case, mirroring the catch-all
handlers): on a missing or unparseable persisted collection, `getCircuits`
and `searchCircuits` return the empty list, `addCircuit` still returns the
fresh entry with zeroed counters while leaving the bad store untouched,
and the increment operations return normally leaving it untouched. -/
theorem gallery_total_interface (store : GalleryStore) (c : SharedCircuit)
    (cid q : String) (filter : GalleryFilter) (limit : Nat) :
    getCircuits GalleryStore.corrupt filter limit = [] ∧
    getCircuits GalleryStore.missing filter limit = [] ∧
    searchCircuits GalleryStore.corrupt q = [] ∧
    searchCircuits GalleryStore.missing q = [] ∧
    (addCircuit store c).1 = toGallery c 0 0 ∧
    (addCircuit GalleryStore.corrupt c).2 = GalleryStore.corrupt ∧
    incrementViews GalleryStore.corrupt cid = GalleryStore.corrupt ∧
    incrementLikes GalleryStore.corrupt cid = GalleryStore.corrupt := by
  refine ⟨rfl, ?_, rfl, rfl, ?_, rfl, rfl, rfl⟩
  · cases filter <;> simp [getCircuits, readGallery]
  · cases store <;> simp [addCircuit, readGallery]

/-! ### `SunspotService` (`src/lib/solana/sunspot.ts`) -/

/-- The network environments of `DeploymentNetwork`. -/
inductive DeploymentNetwork where
  | devnet
  | mainnetBeta
  | testnet
  deriving DecidableEq

/-- Externally visible events of an orchestrated call: a progress-callback
invocation with its percentage and label, and the awaited external calls
(the injected signer, `sendRawTransaction`, `confirmTransaction`). -/
inductive TxEvent where
  | progress (pct : Nat) (message : String)
  | signCall
  | sendCall
  | confirmCall
  deriving DecidableEq

/-- Result type of `SunspotService.deployVerifier`.  The TS `cost` field is
`lamports / LAMPORTS_PER_SOL`; the lamports numerator is kept here. -/
structure SunspotDeploymentResult where
  programId : String
  transactionSignature : String
  network : DeploymentNetwork
  costLamports : Nat
  deriving DecidableEq

/-- Result type of `SunspotService.verifyProofOnChain`. -/
structure OnChainVerificationResult where
  isValid : Bool
  transactionSignature : String
  network : DeploymentNetwork
  timestamp : Nat
  deriving DecidableEq

/-- One invocation's environment for `deployVerifier`: the outcome each
awaited external call would produce, the freshly generated account key, and
the active network. -/
structure DeployEnv where
  freshProgramId : String
  rentExemption : Except String Nat
  latestBlockhash : Except String String
  signOutcome : Except String Unit
  sendOutcome : Except String String
  confirmOutcome : Except String Unit
  network : DeploymentNetwork

/-- `SunspotService.deployVerifier`: the sequence of progress reports and
awaited external calls, each await propagating its rejection (aborting the
remaining steps), and the deployment record built on full success.
Returns the emitted event trace and the outcome. -/
def deployVerifier (env : DeployEnv) :
    List TxEvent × Except String SunspotDeploymentResult :=
  let t1 := [TxEvent.progress 10 "Preparing deployment..."]
  let t2 := t1 ++ [TxEvent.progress 20 "Calculating deployment cost..."]
  match env.rentExemption with
  | Except.error e => (t2, Except.error e)
  | Except.ok lamports =>
    let t3 := t2 ++ [TxEvent.progress 30 "Creating verifier account..."]
    let t4 := t3 ++ [TxEvent.progress 40 "Building transaction..."]
    match env.latestBlockhash with
    | Except.error e => (t4, Except.error e)
    | Except.ok _bh =>
      let t5 := t4 ++ [TxEvent.progress 50 "Signing transaction..."]
      let t6 := t5 ++ [TxEvent.signCall]
      match env.signOutcome with
      | Except.error e => (t6, Except.error e)
      | Except.ok _ =>
        let t7 := t6 ++ [TxEvent.progress 70 "Sending transaction...",
                         TxEvent.sendCall]
        match env.sendOutcome with
        | Except.error e => (t7, Except.error e)
        | Except.ok signature =>
          let t8 := t7 ++ [TxEvent.progress 85 "Confirming transaction...",
                           TxEvent.confirmCall]
          match env.confirmOutcome with
          | Except.error e => (t8, Except.error e)
          | Except.ok _ =>
            (t8 ++ [TxEvent.progress 100 "Deployment complete!"],
             Except.ok { programId := env.freshProgramId,
                         transactionSignature := signature,
                         network := env.network,
                         costLamports := lamports })

/-- One invocation's environment for `verifyProofOnChain`.  `txOutputValid`
is what a deterministic inspection of the confirmed transaction's
log/return data would report; the code never reads it. -/
structure VerifyEnv where
  latestBlockhash : Except String String
  signOutcome : Except String Unit
  sendOutcome : Except String String
  confirmOutcome : Except String Unit
  txOutputValid : Bool
  network : DeploymentNetwork
  now : Nat

/-- `SunspotService.verifyProofOnChain`: progress reports and awaited
external calls in order, rejections propagating, and on full success a
record whose `isValid` field is the literal `true`. -/
def verifyProofOnChain (env : VerifyEnv) :
    List TxEvent × Except String OnChainVerificationResult :=
  let t1 := [TxEvent.progress 10 "Preparing verification..."]
  let t2 := t1 ++ [TxEvent.progress 30 "Building verification transaction..."]
  match env.latestBlockhash with
  | Except.error e => (t2, Except.error e)
  | Except.ok _bh =>
    let t3 := t2 ++ [TxEvent.progress 50 "Signing verification transaction...",
                     TxEvent.signCall]
    match env.signOutcome with
    | Except.error e => (t3, Except.error e)
    | Except.ok _ =>
      let t4 := t3 ++ [TxEvent.progress 70 "Sending verification transaction...",
                       TxEvent.sendCall]
      match env.sendOutcome with
      | Except.error e => (t4, Except.error e)
      | Except.ok signature =>
        let t5 := t4 ++ [TxEvent.progress 85 "Confirming verification...",
                         TxEvent.confirmCall]
        match env.confirmOutcome with
        | Except.error e => (t5, Except.error e)
        | Except.ok _ =>
          (t5 ++ [TxEvent.progress 100 "Verification complete!"],
           Except.ok { isValid := true,
                       transactionSignature := signature,
                       network := env.network,
                       timestamp := env.now })

/-- The percentages passed to the progress callback, in emission order. -/
def progressValues (tr : List TxEvent) : List Nat :=
  tr.filterMap fun e =>
    match e with
    | TxEvent.progress p _ => some p
    | _ => none

/-- The percentage of the last progress event emitted strictly before the
first occurrence of the event `a` in the trace. -/
def lastProgressBefore (tr : List TxEvent) (a : TxEvent) : Option Nat :=
  (progressValues (tr.takeWhile (fun x => x != a))).getLast?

/-- A deployment environment in which every external call succeeds. -/
def deployEnvOk : DeployEnv :=
  { freshProgramId := "9xQeWvG816bUx9EPjHmaT23yvVM2ZWbrrpZb9PusVFin",
    rentExemption := Except.ok 2439, latestBlockhash := Except.ok "bh1",
    signOutcome := Except.ok (), sendOutcome := Except.ok "sig1",
    confirmOutcome := Except.ok (), network := DeploymentNetwork.devnet }

/-- A deployment environment whose injected signer rejects. -/
def deployEnvSignerFail : DeployEnv :=
  { deployEnvOk with signOutcome := Except.error "user rejected signing" }

/-- A verification environment in which every external call succeeds but
the confirmed transaction's program output indicates an invalid proof. -/
def verifyEnvInvalidProof : VerifyEnv :=
  { latestBlockhash := Except.ok "bh2", signOutcome := Except.ok (),
    sendOutcome := Except.ok "vsig1", confirmOutcome := Except.ok (),
    txOutputValid := false, network := DeploymentNetwork.devnet,
    now := 1700000000000 }

/-- C3: the code does not interpret the confirmed transaction's output.
On a confirmed verification whose on-chain program output indicates an
invalid proof, `verifyProofOnChain` still returns `isValid = true`
unconditionally — the behavior the spec marks as a placeholder gap. -/
theorem verify_ignores_tx_output :
    verifyEnvInvalidProof.txOutputValid = false ∧
    (verifyProofOnChain verifyEnvInvalidProof).2
      = Except.ok { isValid := true, transactionSignature := "vsig1",
                    network := DeploymentNetwork.devnet,
                    timestamp := 1700000000000 } :=
  ⟨rfl, rfl⟩

/-- C4: in one successful deployment call and one successful verification
call, the sequence of progress values is monotonically non-decreasing and
contains 100 exactly once, as the last value. -/
theorem progress_monotone_complete (denv : DeployEnv) (venv : VerifyEnv)
    (r : Nat) (bh sig bh2 sig2 : String)
    (h1 : denv.rentExemption = Except.ok r)
    (h2 : denv.latestBlockhash = Except.ok bh)
    (h3 : denv.signOutcome = Except.ok ())
    (h4 : denv.sendOutcome = Except.ok sig)
    (h5 : denv.confirmOutcome = Except.ok ())
    (h6 : venv.latestBlockhash = Except.ok bh2)
    (h7 : venv.signOutcome = Except.ok ())
    (h8 : venv.sendOutcome = Except.ok sig2)
    (h9 : venv.confirmOutcome = Except.ok ()) :
    (progressValues (deployVerifier denv).1).Chain' (· ≤ ·) ∧
    (progressValues (deployVerifier denv).1).count 100 = 1 ∧
    (progressValues (deployVerifier denv).1).getLast? = some 100 ∧
    (progressValues (verifyProofOnChain venv).1).Chain' (· ≤ ·) ∧
    (progressValues (verifyProofOnChain venv).1).count 100 = 1 ∧
    (progressValues (verifyProofOnChain venv).1).getLast? = some 100 := by
  have hd : progressValues (deployVerifier denv).1
      = [10, 20, 30, 40, 50, 70, 85, 100] := by
    simp [deployVerifier, h1, h2, h3, h4, h5, progressValues]
  have hv : progressValues (verifyProofOnChain venv).1
      = [10, 30, 50, 70, 85, 100] := by
    simp [verifyProofOnChain, h6, h7, h8, h9, progressValues]
  rw [hd, hv]
  refine ⟨?_, by decide, by decide, ?_, by decide, by decide⟩ <;>
    simp [List.chain'_cons]

/-- Instantiation of C4's theorem at concrete all-success environments. -/
theorem progress_monotone_complete_witness :
    (progressValues (deployVerifier deployEnvOk).1).Chain' (· ≤ ·) ∧
    (progressValues (deployVerifier deployEnvOk).1).count 100 = 1 ∧
    (progressValues (deployVerifier deployEnvOk).1).getLast? = some 100 ∧
    (progressValues (verifyProofOnChain verifyEnvInvalidProof).1).Chain' (· ≤ ·) ∧
    (progressValues (verifyProofOnChain verifyEnvInvalidProof).1).count 100 = 1 ∧
    (progressValues (verifyProofOnChain verifyEnvInvalidProof).1).getLast?
      = some 100 :=
  progress_monotone_complete deployEnvOk verifyEnvInvalidProof 2439 "bh1"
    "sig1" "bh2" "vsig1" rfl rfl rfl rfl rfl rfl rfl rfl rfl

/-- C5 as stated is false on the code: in a successful deployment the
progress event announced before the signing step carries 50 percent (label
"Signing transaction...") and the one announced before the submission step
carries 70 percent, not the spec-assigned 70 and 85. -/
theorem deploy_stage_percentages_cex :
    ¬ (lastProgressBefore (deployVerifier deployEnvOk).1 TxEvent.signCall
          = some 70
        ∧ lastProgressBefore (deployVerifier deployEnvOk).1 TxEvent.sendCall
          = some 85) := by
  decide

/-- C5 (amended): in every successful deployment the stages are announced
in order with none skipped, each progress event firing before its stage
executes; the signing stage is announced at 50 percent ("Signing
transaction..."), the submission stage at 70 percent ("Sending
transaction..."), confirmation at 85 percent, and completion is reported
at 100 percent. -/
theorem deploy_progress_stages (env : DeployEnv) (r : Nat) (bh sig : String)
    (h1 : env.rentExemption = Except.ok r)
    (h2 : env.latestBlockhash = Except.ok bh)
    (h3 : env.signOutcome = Except.ok ())
    (h4 : env.sendOutcome = Except.ok sig)
    (h5 : env.confirmOutcome = Except.ok ()) :
    (deployVerifier env).1 =
      [TxEvent.progress 10 "Preparing deployment...",
       TxEvent.progress 20 "Calculating deployment cost...",
       TxEvent.progress 30 "Creating verifier account...",
       TxEvent.progress 40 "Building transaction...",
       TxEvent.progress 50 "Signing transaction...",
       TxEvent.signCall,
       TxEvent.progress 70 "Sending transaction...",
       TxEvent.sendCall,
       TxEvent.progress 85 "Confirming transaction...",
       TxEvent.confirmCall,
       TxEvent.progress 100 "Deployment complete!"] := by
  simp [deployVerifier, h1, h2, h3, h4, h5]

/-- Instantiation of C5's amended theorem at a concrete all-success
environment. -/
theorem deploy_progress_stages_witness :
    (deployVerifier deployEnvOk).1 =
      [TxEvent.progress 10 "Preparing deployment...",
       TxEvent.progress 20 "Calculating deployment cost...",
       TxEvent.progress 30 "Creating verifier account...",
       TxEvent.progress 40 "Building transaction...",
       TxEvent.progress 50 "Signing transaction...",
       TxEvent.signCall,
       TxEvent.progress 70 "Sending transaction...",
       TxEvent.sendCall,
       TxEvent.progress 85 "Confirming transaction...",
       TxEvent.confirmCall,
       TxEvent.progress 100 "Deployment complete!"] :=
  deploy_progress_stages deployEnvOk 2439 "bh1" "sig1" rfl rfl rfl rfl rfl

/-- C6: when the injected signer rejects, `deployVerifier` fails with that
error, returns no deployment record, stops the trace at the signer call,
and in particular fires no progress event beyond 50 percent (none for the
submission or confirmation stages). -/
theorem signer_rejection_aborts (env : DeployEnv) (r : Nat)
    (bh err : String)
    (h1 : env.rentExemption = Except.ok r)
    (h2 : env.latestBlockhash = Except.ok bh)
    (h3 : env.signOutcome = Except.error err) :
    (deployVerifier env).2 = Except.error err ∧
    (deployVerifier env).1 =
      [TxEvent.progress 10 "Preparing deployment...",
       TxEvent.progress 20 "Calculating deployment cost...",
       TxEvent.progress 30 "Creating verifier account...",
       TxEvent.progress 40 "Building transaction...",
       TxEvent.progress 50 "Signing transaction...",
       TxEvent.signCall] ∧
    (∀ p m, TxEvent.progress p m ∈ (deployVerifier env).1 → p ≤ 50) := by
  have htr : (deployVerifier env).1 =
      [TxEvent.progress 10 "Preparing deployment...",
       TxEvent.progress 20 "Calculating deployment cost...",
       TxEvent.progress 30 "Creating verifier account...",
       TxEvent.progress 40 "Building transaction...",
       TxEvent.progress 50 "Signing transaction...",
       TxEvent.signCall] := by
    simp [deployVerifier, h1, h2, h3]
  refine ⟨by simp [deployVerifier, h1, h2, h3], htr, ?_⟩
  rw [htr]
  intro p m hm
  simp only [List.mem_cons, List.not_mem_nil, or_false] at hm
  rcases hm with h | h | h | h | h | h <;> first
    | (cases h; omega)
    | (cases h)

/-- Instantiation of C6's theorem at a concrete signer-rejection
environment. -/
theorem signer_rejection_aborts_witness :
    (deployVerifier deployEnvSignerFail).2
        = Except.error "user rejected signing"
      ∧ ∀ p m, TxEvent.progress p m ∈ (deployVerifier deployEnvSignerFail).1
          → p ≤ 50 :=
  ⟨(signer_rejection_aborts deployEnvSignerFail 2439 "bh1"
      "user rejected signing" rfl rfl rfl).1,
   (signer_rejection_aborts deployEnvSignerFail 2439 "bh1"
      "user rejected signing" rfl rfl rfl).2.2⟩

end ZkPlayground
